import Mathlib

/-!
Verification of the Sandpack playground component (`SandpackRoot.tsx`).

The component's decision logic is embedded shallowly:
* the file-map assembler (stylesheet merging plus demo-mode boilerplate
  injection) as `assembleFiles` over association-list file maps with
  JavaScript-object update semantics (`setFile` / `getFile`);
* the provider configuration selector as `providerConfig`;
* the `Contents` presentation-state derivation (one-shot line-count
  memoization and the expandable threshold) as `contentsDerive`.
String template constants are transcribed with JavaScript cooked-string
semantics; `package.json` content is the `JSON.stringify` output.
-/

def sandboxStyle : String := String.trim
  ("\n" ++
  "* \x7b\n" ++
  "  box-sizing: border-box;\n" ++
  "\x7d\n" ++
  "\n" ++
  "body \x7b\n" ++
  "  font-family: sans-serif;\n" ++
  "  margin: 20px;\n" ++
  "  padding: 0;\n" ++
  "\x7d\n" ++
  "\n" ++
  "h1 \x7b\n" ++
  "  margin-top: 0;\n" ++
  "  font-size: 22px;\n" ++
  "\x7d\n" ++
  "\n" ++
  "h2 \x7b\n" ++
  "  margin-top: 0;\n" ++
  "  font-size: 20px;\n" ++
  "\x7d\n" ++
  "\n" ++
  "h3 \x7b\n" ++
  "  margin-top: 0;\n" ++
  "  font-size: 18px;\n" ++
  "\x7d\n" ++
  "\n" ++
  "h4 \x7b\n" ++
  "  margin-top: 0;\n" ++
  "  font-size: 16px;\n" ++
  "\x7d\n" ++
  "\n" ++
  "h5 \x7b\n" ++
  "  margin-top: 0;\n" ++
  "  font-size: 14px;\n" ++
  "\x7d\n" ++
  "\n" ++
  "h6 \x7b\n" ++
  "  margin-top: 0;\n" ++
  "  font-size: 12px;\n" ++
  "\x7d\n" ++
  "\n" ++
  "code \x7b\n" ++
  "  font-size: 1.2em;\n" ++
  "\x7d\n" ++
  "\n" ++
  "ul \x7b\n" ++
  "  padding-inline-start: 20px;\n" ++
  "\x7d\n")

def SCRIPT_CODE : String :=
  "\n" ++
  "\n" ++
  "const webpack = require(\"webpack\");\n" ++
  "const ReactServerWebpackPlugin = require(\"react-server-dom-webpack/plugin\");\n" ++
  "const path = require(\"path\");\n" ++
  "\n" ++
  "async function build() \x7b\n" ++
  "  return new Promise((resolve, reject) => \x7b\n" ++
  "    webpack(\n" ++
  "      \x7b\n" ++
  "        mode: \"development\",\n" ++
  "        devtool: \"cheap-module-source-map\",\n" ++
  "        entry: [path.resolve(__dirname, \"./server.js\")],\n" ++
  "        output: \x7b\n" ++
  "          path: path.resolve(__dirname, \"./build\"),\n" ++
  "          filename: \"main.js\",\n" ++
  "        \x7d,\n" ++
  "        module: \x7b\n" ++
  "          rules: [\n" ++
  "            \x7b\n" ++
  "              test: /.js$/,\n" ++
  "              use: \"babel-loader\",\n" ++
  "              exclude: /node_modules/,\n" ++
  "            \x7d,\n" ++
  "          ],\n" ++
  "        \x7d,\n" ++
  "        plugins: [\n" ++
  "          new ReactServerWebpackPlugin(\x7b isServer: false \x7d),\n" ++
  "        ],\n" ++
  "      \x7d,\n" ++
  "      (err, stats) => \x7b\n" ++
  "        if (err) \x7b\n" ++
  "          console.error(err.stack || err);\n" ++
  "          if (err.details) \x7b\n" ++
  "            console.error(err.details);\n" ++
  "          \x7d\n" ++
  "          reject();\n" ++
  "        \x7d\n" ++
  "        if (stats?.hasErrors()) \x7b\n" ++
  "          console.log(\"Finished running webpack with errors.\");\n" ++
  "          const info = stats.toJson();\n" ++
  "          info.errors.forEach((e) => console.error(e));\n" ++
  "          reject();\n" ++
  "        \x7d else \x7b\n" ++
  "          console.log(\"Finished running webpack.\");\n" ++
  "          resolve();\n" ++
  "        \x7d\n" ++
  "      \x7d\n" ++
  "    );\n" ++
  "  \x7d);\n" ++
  "\x7d\n" ++
  "\n" ++
  "\n" ++
  "const http = require(\x27http\x27);\n" ++
  "const fs = require(\x27fs\x27).promises;\n" ++
  "\n" ++
  "async function main() \x7b\n" ++
  "  await build();\n" ++
  "\n" ++
  "  const hostname = \x27127.0.0.1\x27;\n" ++
  "  const port = 1234;\n" ++
  "\n" ++
  "  async function serveIndex(req, res) \x7b\n" ++
  "    res.statusCode = 200;\n" ++
  "    res.setHeader(\x27Content-Type\x27, \x27text/html\x27);\n" ++
  "    const fileContents = await fs.readFile(path.resolve(__dirname, \"./serverIndex.html\"), \x27utf8\x27);\n" ++
  "    res.end(fileContents)\n" ++
  "  \x7d\n" ++
  "\n" ++
  "  async function serveScript(req, res) \x7b\n" ++
  "    res.statusCode = 200;\n" ++
  "    res.setHeader(\x27Content-Type\x27, \x27text/javascript\x27);\n" ++
  "    const fileContents = await fs.readFile(path.resolve(__dirname, \"./build/main.js\"), \x27utf8\x27);\n" ++
  "    res.end(fileContents)\n" ++
  "  \x7d\n" ++
  "\n" ++
  "  const server = http.createServer(async (req, res) => \x7b    \n" ++
  "    switch (req.url) \x7b\n" ++
  "      case \x27/\x27:\n" ++
  "        return serveIndex(req, res);\n" ++
  "      case \x27/main.js\x27:\n" ++
  "        return serveScript(req, res);\n" ++
  "    \x7d\n" ++
  "  \x7d);\n" ++
  "\n" ++
  "  server.listen(port, hostname);\n" ++
  "\x7d\n" ++
  "\n" ++
  "main();\n"

def SERVER_CODE : String :=
  "\n" ++
  "console.log(\"The server code is run\");\n"

def HTML_CODE : String :=
  "\n" ++
  "<!DOCTYPE html>\n" ++
  "<html lang=\"en\">\n" ++
  "  <head>\n" ++
  "    <meta charset=\"utf-8\" />\n" ++
  "    <meta name=\"description\" content=\"React with Server Components demo\">\n" ++
  "    <meta name=\"viewport\" content=\"width=device-width, initial-scale=1\" />\n" ++
  "    <link rel=\"stylesheet\" href=\"style.css\" />\n" ++
  "    <title>React Notes</title>\n" ++
  "    <script defer src=\"main.js\"></script>\n" ++
  "  </head>\n" ++
  "  <body>\n" ++
  "    <div id=\"root\"></div>\n" ++
  "    <script>\n" ++
  "      // In development, we restart the server on every edit.\n" ++
  "      // For the purposes of this demo, retry fetch automatically.\n" ++
  "      let nativeFetch = window.fetch;\n" ++
  "      window.fetch = async function fetchWithRetry(...args) \x7b\n" ++
  "        for (let i = 0; i < 4; i++) \x7b\n" ++
  "          try \x7b\n" ++
  "            return await nativeFetch(...args);\n" ++
  "          \x7d catch (e) \x7b\n" ++
  "            if (args[1] && args[1].method !== \x27GET\x27) \x7b\n" ++
  "              // Don\x27t retry mutations to avoid confusion\n" ++
  "              throw e;\n" ++
  "            \x7d\n" ++
  "            await new Promise(resolve => setTimeout(resolve, 500));\n" ++
  "          \x7d\n" ++
  "        \x7d\n" ++
  "        return nativeFetch(...args);\n" ++
  "      \x7d\n" ++
  "    </script>\n" ++
  "  </body>\n" ++
  "</html>\n"

def PACKAGE_JSON_CODE : String :=
  "\x7b\"dependencies\":\x7b\"@babel/core\":\"7.21.3\",\"@babel/plugin-transform-modules-commonjs\":\"^7.21.2\",\"@babel/preset-react\":\"^7.18.6\",\"@babel/register\":\"^7.21.0\",\"acorn-jsx\":\"^5.3.2\",\"acorn-loose\":\"^8.3.0\",\"babel-loader\":\"8.3.0\",\"compression\":\"^1.7.4\",\"concurrently\":\"^7.6.0\",\"excerpts\":\"^0.0.3\",\"express\":\"^4.18.2\",\"html-webpack-plugin\":\"5.5.0\",\"react\":\"18.3.0-next-1308e49a6-20230330\",\"react-dom\":\"18.3.0-next-1308e49a6-20230330\",\"react-error-boundary\":\"^3.1.4\",\"react-server-dom-webpack\":\"18.3.0-next-1308e49a6-20230330\",\"resolve\":\"1.22.1\",\"rimraf\":\"^4.4.0\",\"sanitize-html\":\"^2.10.0\",\"server-only\":\"^0.0.1\",\"webpack\":\"5.76.2\"\x7d,\"devDependencies\":\x7b\"@types/node\":\"^20.2.3\",\"cross-env\":\"^7.0.3\",\"nodemon\":\"^2.0.21\",\"prettier\":\"1.19.1\"\x7d,\"scripts\":\x7b\"start\":\"node script.js\"\x7d,\"main\":\"script.js\"\x7d"

/-- One entry of the virtual file map: `code` and `hidden` as produced by the
assembler, plus the optional author-supplied `visible` marker consulted for
the stylesheet entry (`none` models an absent field). -/
structure SandpackFile where
  code : String
  hidden : Bool
  visible : Option Bool
deriving Repr, DecidableEq

/-- The virtual file map, a JavaScript-object-like association of paths to
files (unique keys maintained by `setFile`). -/
abbrev FileMap := List (String × SandpackFile)

/-- Property read `files[p]` on the file map (first matching key). -/
def getFile (m : FileMap) (p : String) : Option SandpackFile :=
  (m.find? (fun kv => kv.1 == p)).map Prod.snd

/-- Property write `files[p] = e`: overwrite an existing key in place,
otherwise append, as a JavaScript object assignment does. -/
def setFile (m : FileMap) (p : String) (e : SandpackFile) : FileMap :=
  if m.any (fun kv => kv.1 == p) then
    m.map (fun kv => if kv.1 == p then (p, e) else kv)
  else
    m ++ [(p, e)]

theorem getFile_setFile_self (m : FileMap) (p : String) (e : SandpackFile) :
    getFile (setFile m p e) p = some e := by
  unfold setFile
  by_cases h : m.any (fun kv => kv.1 == p)
  · rw [if_pos h]
    induction m with
    | nil => simp at h
    | cons kv tl ih =>
      by_cases hk : kv.1 = p
      · simp [getFile, hk]
      · have h' : tl.any (fun kv => kv.1 == p) := by
          simpa [hk] using h
        simpa [getFile, hk] using ih h'
  · rw [if_neg h]
    rw [List.any_eq_true] at h
    push_neg at h
    induction m with
    | nil => simp [getFile]
    | cons kv tl ih =>
      have hk : ¬ kv.1 = p := by
        have := h kv (by simp)
        simpa using this
      have h' : ∀ x ∈ tl, ¬ (x.1 == p) = true := fun x hx => h x (by simp [hx])
      simpa [getFile, hk] using ih h'

theorem find?_map_update_ne (m : FileMap) (p q : String) (e : SandpackFile)
    (hq : q ≠ p) :
    (m.map fun kv => if kv.1 == p then (p, e) else kv).find?
        (fun kv => kv.1 == q) =
      m.find? (fun kv => kv.1 == q) := by
  induction m with
  | nil => rfl
  | cons kv tl ih =>
    rw [List.map_cons]
    by_cases hk : kv.1 = p
    · have h1 : (if kv.1 == p then (p, e) else kv) = (p, e) := by simp [hk]
      rw [h1]
      rw [List.find?_cons_of_neg _
            (by simp only [beq_iff_eq]; exact fun hh => hq hh.symm),
          List.find?_cons_of_neg _
            (by simp only [beq_iff_eq, hk]; exact fun hh => hq hh.symm), ih]
    · have h1 : (if kv.1 == p then (p, e) else kv) = kv := by simp [hk]
      rw [h1]
      by_cases hkq : kv.1 = q
      · rw [List.find?_cons_of_pos _ (by simp [hkq]),
            List.find?_cons_of_pos _ (by simp [hkq])]
      · rw [List.find?_cons_of_neg _ (by simp [hkq]),
            List.find?_cons_of_neg _ (by simp [hkq]), ih]

theorem find?_append_single_ne (m : FileMap) (p q : String) (e : SandpackFile)
    (hq : q ≠ p) :
    (m ++ [(p, e)]).find? (fun kv => kv.1 == q) =
      m.find? (fun kv => kv.1 == q) := by
  induction m with
  | nil =>
    rw [List.nil_append,
        List.find?_cons_of_neg _
          (by simp only [beq_iff_eq]; exact fun hh => hq hh.symm)]
  | cons kv tl ih =>
    rw [List.cons_append]
    by_cases hkq : kv.1 = q
    · rw [List.find?_cons_of_pos _ (by simp [hkq]),
          List.find?_cons_of_pos _ (by simp [hkq])]
    · rw [List.find?_cons_of_neg _ (by simp [hkq]),
          List.find?_cons_of_neg _ (by simp [hkq]), ih]

theorem getFile_setFile_ne (m : FileMap) (p q : String) (e : SandpackFile)
    (hq : q ≠ p) : getFile (setFile m p e) q = getFile m q := by
  unfold setFile getFile
  by_cases h : m.any (fun kv => kv.1 == p)
  · rw [if_pos h, find?_map_update_ne m p q e hq]
  · rw [if_neg h, find?_append_single_ne m p q e hq]

/-- The `/styles.css` entry written by `SandpackRoot`: the base stylesheet
joined by `'\n\n'` with the author stylesheet's code (defaulted to the empty
string), hidden unless the author entry's `visible` field is truthy. -/
def stylesEntry (files0 : FileMap) : SandpackFile :=
  { code := String.intercalate "\n\n"
      [sandboxStyle, ((getFile files0 "/styles.css").map SandpackFile.code).getD ""],
    hidden := !(((getFile files0 "/styles.css").bind SandpackFile.visible).getD false),
    visible := none }

/-- The file-map assembly performed by `SandpackRoot` on the map returned by
`createFileMap`: merge the base stylesheet into the stylesheet entry, then,
when `serverComponents` is set, inject the hidden demo boilerplate files. -/
def assembleFiles (files0 : FileMap) (serverComponents : Bool) : FileMap :=
  let files1 := setFile files0 "/styles.css" (stylesEntry files0)
  if serverComponents then
    let files2 := setFile files1 "script.js"
      { code := SCRIPT_CODE, hidden := true, visible := none }
    let files3 := setFile files2 "server.js"
      { code := SERVER_CODE, hidden := true, visible := none }
    let files4 := setFile files3 "serverIndex.html"
      { code := HTML_CODE, hidden := true, visible := none }
    setFile files4 "package.json"
      { code := PACKAGE_JSON_CODE, hidden := true, visible := none }
  else
    files1

/-- The `SandpackLogLevel` enumeration of the sandbox client library. -/
inductive SandpackLogLevel where
  | None
  | Error
  | Warning
  | Info
  | Debug
deriving Repr, DecidableEq

/-- The nested `initModeObserverOptions` object. -/
structure InitModeObserverOptions where
  rootMargin : String
deriving Repr, DecidableEq

/-- The provider `options` object assembled by `SandpackRoot`
(`bundlerURL := none` models the absent field of `baseOptions`). -/
structure SandpackOptions where
  autorun : Bool
  initMode : String
  initModeObserverOptions : InitModeObserverOptions
  bundlerURL : Option String
  logLevel : SandpackLogLevel
deriving Repr, DecidableEq

/-- The `customSetup` object passed in demo mode. -/
structure CustomSetup where
  entry : String
  environment : String
deriving Repr, DecidableEq

/-- Everything `SandpackRoot` passes to `SandpackProvider` besides the file
map: `template`, `options` and `customSetup` (`none` models omission). -/
structure ProviderConfig where
  template : Option String
  options : SandpackOptions
  customSetup : Option CustomSetup
deriving Repr, DecidableEq

/-- The provider configuration selector of `SandpackRoot`: `baseOptions`,
then the two-way branch on `serverComponents` choosing options, template and
custom setup. -/
def providerConfig (autorun serverComponents : Bool) : ProviderConfig :=
  let baseOptions : SandpackOptions :=
    { autorun := autorun,
      initMode := "user-visible",
      initModeObserverOptions := { rootMargin := "1400px 0px" },
      bundlerURL := none,
      logLevel := SandpackLogLevel.None }
  let options :=
    if serverComponents then baseOptions
    else { baseOptions with
           bundlerURL := some "https://1e4ad8f7.sandpack-bundler-4bw.pages.dev" }
  let template := if serverComponents then none else some "react"
  let customSetup :=
    if serverComponents then
      some { entry := "server.js", environment := "node" }
    else none
  { template := template, options := options, customSetup := customSetup }

/-- The optional props of `SandpackRoot` (`none` models an omitted prop);
the destructuring defaults are `autorun = true, serverComponents = false`. -/
structure SandpackProps where
  autorun : Option Bool
  serverComponents : Option Bool
deriving Repr, DecidableEq

/-- `SandpackRoot` itself, restricted to its computation: apply the
destructuring defaults, assemble the file map from the `createFileMap`
result, and build the provider configuration. -/
def sandpackRoot (props : SandpackProps) (files : FileMap) :
    FileMap × ProviderConfig :=
  let autorun := props.autorun.getD true
  let serverComponents := props.serverComponents.getD false
  (assembleFiles files serverComponents, providerConfig autorun serverComponents)

/-- `code.split('\n')` on the character sequence of the active file's text:
split at every newline character (a JavaScript single-character-separator
split always yields `occurrences + 1` segments). -/
def splitNl (s : List Char) : List (List Char) :=
  match s with
  | [] => [[]]
  | c :: cs =>
    let r := splitNl cs
    if c = '\n' then [] :: r
    else (c :: r.headD []) :: r.tail

/-- `code.split('\n').length`, the line count stored in the cache. -/
def lineCount (code : String) : Nat :=
  (splitNl code.data).length

/-- The `lineCountRef.current` object: a path-to-line-count cache. -/
abbrev LineCache := List (String × Nat)

/-- Property read `lineCountRef.current[p]`. -/
def cacheLookup (c : LineCache) (p : String) : Option Nat :=
  (c.find? (fun kv => kv.1 == p)).map Prod.snd

/-- Property write `lineCountRef.current[p] = n`. -/
def setCount (c : LineCache) (p : String) (n : Nat) : LineCache :=
  if c.any (fun kv => kv.1 == p) then
    c.map (fun kv => if kv.1 == p then (p, n) else kv)
  else
    c ++ [(p, n)]

/-- The outcome of one render of `Contents`: the updated cache, the
`lineCount` local, and the `isExpandable` flag. -/
structure DeriveResult where
  cache : LineCache
  lineCount : Nat
  isExpandable : Bool
deriving Repr, DecidableEq

/-- One render of `Contents`'s derivation: populate the cache for
`activeFile` when its entry is absent or falsy (`0`), then read the count
and compare against the threshold `16`. -/
def contentsDerive (lineCountRef : LineCache) (activeFile code : String) :
    DeriveResult :=
  let lineCountRef :=
    if (cacheLookup lineCountRef activeFile).getD 0 = 0 then
      setCount lineCountRef activeFile (lineCount code)
    else lineCountRef
  let n := (cacheLookup lineCountRef activeFile).getD 0
  { cache := lineCountRef, lineCount := n, isExpandable := n > 16 }

theorem cacheLookup_setCount_self (c : LineCache) (p : String) (n : Nat) :
    cacheLookup (setCount c p n) p = some n := by
  unfold setCount
  by_cases h : c.any (fun kv => kv.1 == p)
  · rw [if_pos h]
    induction c with
    | nil => simp at h
    | cons kv tl ih =>
      by_cases hk : kv.1 = p
      · simp [cacheLookup, hk]
      · have h' : tl.any (fun kv => kv.1 == p) := by
          simpa [hk] using h
        simpa [cacheLookup, hk] using ih h'
  · rw [if_neg h]
    rw [List.any_eq_true] at h
    push_neg at h
    induction c with
    | nil => simp [cacheLookup]
    | cons kv tl ih =>
      have hk : ¬ kv.1 = p := by
        have := h kv (by simp)
        simpa using this
      have h' : ∀ x ∈ tl, ¬ (x.1 == p) = true := fun x hx => h x (by simp [hx])
      simpa [cacheLookup, hk] using ih h'

theorem cacheLookup_setCount_ne (c : LineCache) (p q : String) (n : Nat)
    (hq : q ≠ p) : cacheLookup (setCount c p n) q = cacheLookup c q := by
  unfold setCount cacheLookup
  by_cases h : c.any (fun kv => kv.1 == p)
  · rw [if_pos h]
    clear h
    congr 1
    induction c with
    | nil => rfl
    | cons kv tl ih =>
      rw [List.map_cons]
      by_cases hk : kv.1 = p
      · have h1 : (if kv.1 == p then (p, n) else kv) = (p, n) := by simp [hk]
        rw [h1]
        rw [List.find?_cons_of_neg _
              (by simp only [beq_iff_eq]; exact fun hh => hq hh.symm),
            List.find?_cons_of_neg _
              (by simp only [beq_iff_eq, hk]; exact fun hh => hq hh.symm), ih]
      · have h1 : (if kv.1 == p then (p, n) else kv) = kv := by simp [hk]
        rw [h1]
        by_cases hkq : kv.1 = q
        · rw [List.find?_cons_of_pos _ (by simp [hkq]),
              List.find?_cons_of_pos _ (by simp [hkq])]
        · rw [List.find?_cons_of_neg _ (by simp [hkq]),
              List.find?_cons_of_neg _ (by simp [hkq]), ih]
  · rw [if_neg h]
    clear h
    congr 1
    induction c with
    | nil =>
      rw [List.nil_append,
          List.find?_cons_of_neg _
            (by simp only [beq_iff_eq]; exact fun hh => hq hh.symm)]
    | cons kv tl ih =>
      rw [List.cons_append]
      by_cases hkq : kv.1 = q
      · rw [List.find?_cons_of_pos _ (by simp [hkq]),
            List.find?_cons_of_pos _ (by simp [hkq])]
      · rw [List.find?_cons_of_neg _ (by simp [hkq]),
            List.find?_cons_of_neg _ (by simp [hkq]), ih]

theorem splitNl_length_pos (s : List Char) : 0 < (splitNl s).length := by
  induction s with
  | nil => simp [splitNl]
  | cons c cs ih =>
    rw [splitNl]
    by_cases hc : c = '\n'
    · simp [hc]
    · simp [hc]

theorem lineCount_pos (code : String) : 1 ≤ lineCount code :=
  splitNl_length_pos code.data

theorem assembleFiles_false (a : FileMap) :
    assembleFiles a false = setFile a "/styles.css" (stylesEntry a) := rfl

theorem assembleFiles_true (a : FileMap) :
    assembleFiles a true =
      setFile (setFile (setFile (setFile
        (setFile a "/styles.css" (stylesEntry a))
        "script.js" ⟨SCRIPT_CODE, true, none⟩)
        "server.js" ⟨SERVER_CODE, true, none⟩)
        "serverIndex.html" ⟨HTML_CODE, true, none⟩)
        "package.json" ⟨PACKAGE_JSON_CODE, true, none⟩ := rfl

theorem getFile_assemble_styles (a : FileMap) (sc : Bool) :
    getFile (assembleFiles a sc) "/styles.css" = some (stylesEntry a) := by
  cases sc with
  | false =>
    rw [assembleFiles_false]
    exact getFile_setFile_self a "/styles.css" (stylesEntry a)
  | true =>
    rw [assembleFiles_true]
    rw [getFile_setFile_ne _ _ _ _ (by decide),
        getFile_setFile_ne _ _ _ _ (by decide),
        getFile_setFile_ne _ _ _ _ (by decide),
        getFile_setFile_ne _ _ _ _ (by decide)]
    exact getFile_setFile_self a "/styles.css" (stylesEntry a)

/-- Claim C1 counterexample: with no author files and demo mode on, the
assembled map holds the stylesheet plus exactly four injected boilerplate
paths — there is no fifth (router-module) boilerplate path. -/
theorem demo_injection_paths_concrete :
    (assembleFiles [] true).map Prod.fst =
      ["/styles.css", "script.js", "server.js", "serverIndex.html",
        "package.json"] ∧
    getFile (assembleFiles [] true) "router.js" = none ∧
    getFile (assembleFiles [] true) "ClientRoot.js" = none := by
  refine ⟨rfl, rfl, rfl⟩

/-- Claim C1 (amended): when demo mode is true, the assembled map contains
entries at exactly four fixed boilerplate paths — entry script `script.js`,
server module `server.js`, HTML shell `serverIndex.html` and dependency
manifest `package.json` — each hidden with its fixed content, overwriting
any author file at those paths, and no other path beyond `/styles.css` is
touched. -/
theorem demo_injects_four_boilerplate (a : FileMap) :
    getFile (assembleFiles a true) "script.js" =
      some ⟨SCRIPT_CODE, true, none⟩ ∧
    getFile (assembleFiles a true) "server.js" =
      some ⟨SERVER_CODE, true, none⟩ ∧
    getFile (assembleFiles a true) "serverIndex.html" =
      some ⟨HTML_CODE, true, none⟩ ∧
    getFile (assembleFiles a true) "package.json" =
      some ⟨PACKAGE_JSON_CODE, true, none⟩ ∧
    ∀ p, p ∉ (["/styles.css", "script.js", "server.js", "serverIndex.html",
        "package.json"] : List String) →
      getFile (assembleFiles a true) p = getFile a p := by
  rw [assembleFiles_true]
  refine ⟨?_, ?_, ?_, ?_, ?_⟩
  · rw [getFile_setFile_ne _ _ _ _ (by decide),
        getFile_setFile_ne _ _ _ _ (by decide),
        getFile_setFile_ne _ _ _ _ (by decide)]
    exact getFile_setFile_self _ _ _
  · rw [getFile_setFile_ne _ _ _ _ (by decide),
        getFile_setFile_ne _ _ _ _ (by decide)]
    exact getFile_setFile_self _ _ _
  · rw [getFile_setFile_ne _ _ _ _ (by decide)]
    exact getFile_setFile_self _ _ _
  · exact getFile_setFile_self _ _ _
  · intro p hp
    simp only [List.mem_cons, List.not_mem_nil, or_false, not_or] at hp
    obtain ⟨h1, h2, h3, h4, h5⟩ := hp
    rw [getFile_setFile_ne _ _ _ _ h5, getFile_setFile_ne _ _ _ _ h4,
        getFile_setFile_ne _ _ _ _ h3, getFile_setFile_ne _ _ _ _ h2,
        getFile_setFile_ne _ _ _ _ h1]

/-- Witness for C1's amended theorem at a concrete input. -/
theorem demo_injects_four_boilerplate_witness :
    getFile (assembleFiles [] true) "script.js" =
      some ⟨SCRIPT_CODE, true, none⟩ ∧
    getFile (assembleFiles [] true) "/App.js" =
      getFile ([] : FileMap) "/App.js" :=
  ⟨(demo_injects_four_boilerplate []).1,
    (demo_injects_four_boilerplate []).2.2.2.2 "/App.js" (by decide)⟩

/-- Claim C2: for every author file set and demo flag, the assembled map's
`/styles.css` entry exists and its code is the trimmed base stylesheet,
then the `'\n\n'` separator, then the author stylesheet code (empty when
absent) — in particular it begins with the base stylesheet. -/
theorem stylesCss_code_begins_with_base (a : FileMap) (sc : Bool) :
    ∃ e, getFile (assembleFiles a sc) "/styles.css" = some e ∧
      e.code = sandboxStyle ++ "\n\n" ++
        (((getFile a "/styles.css").map SandpackFile.code).getD "") ∧
      ∃ rest, e.code = sandboxStyle ++ rest := by
  refine ⟨stylesEntry a, getFile_assemble_styles a sc, rfl, ?_⟩
  exact ⟨"\n\n" ++ (((getFile a "/styles.css").map SandpackFile.code).getD ""),
    (String.append_assoc _ _ _)⟩

/-- Claim C3: the assembled `/styles.css` entry is hidden exactly when the
author stylesheet's `visible` marker is not truthy: an explicit
`visible = true` yields `hidden = false`; an absent author stylesheet, or
one whose marker is absent or `false`, yields `hidden = true`. -/
theorem stylesCss_hidden_iff_visible (a : FileMap) (sc : Bool) :
    ∃ e, getFile (assembleFiles a sc) "/styles.css" = some e ∧
      e.hidden =
        !(((getFile a "/styles.css").bind SandpackFile.visible).getD false) ∧
      (((getFile a "/styles.css").bind SandpackFile.visible) = some true →
        e.hidden = false) ∧
      (∀ v, getFile a "/styles.css" = some v → v.visible ≠ some true →
        e.hidden = true) ∧
      (getFile a "/styles.css" = none → e.hidden = true) := by
  refine ⟨stylesEntry a, getFile_assemble_styles a sc, rfl, ?_, ?_, ?_⟩
  · intro hv
    show (!(((getFile a "/styles.css").bind SandpackFile.visible).getD false))
        = false
    rw [hv]
    rfl
  · intro v hv hnv
    show (!(((getFile a "/styles.css").bind SandpackFile.visible).getD false))
        = true
    rw [hv]
    match hb : v.visible with
    | none => simp [hb]
    | some true => exact absurd hb hnv
    | some false => simp [hb]
  · intro hn
    show (!(((getFile a "/styles.css").bind SandpackFile.visible).getD false))
        = true
    rw [hn]
    rfl

/-- Witness for C3 at concrete inputs covering all three hypotheses. -/
theorem stylesCss_hidden_iff_visible_witness :
    (∃ e, getFile (assembleFiles [] false) "/styles.css" = some e ∧
      e.hidden = true) ∧
    (∃ e, getFile (assembleFiles
        [("/styles.css", ⟨"body", false, some true⟩)] false) "/styles.css" =
        some e ∧ e.hidden = false) ∧
    (∃ e, getFile (assembleFiles
        [("/styles.css", ⟨"body", false, none⟩)] false) "/styles.css" =
        some e ∧ e.hidden = true) := by
  refine ⟨?_, ?_, ?_⟩
  · obtain ⟨e, h1, _, _, _, h5⟩ := stylesCss_hidden_iff_visible [] false
    exact ⟨e, h1, h5 rfl⟩
  · obtain ⟨e, h1, _, h3, _, _⟩ := stylesCss_hidden_iff_visible
      [("/styles.css", ⟨"body", false, some true⟩)] false
    exact ⟨e, h1, h3 (by decide)⟩
  · obtain ⟨e, h1, _, _, h4, _⟩ := stylesCss_hidden_iff_visible
      [("/styles.css", ⟨"body", false, none⟩)] false
    exact ⟨e, h1, h4 ⟨"body", false, none⟩ (by decide) (by decide)⟩

/-- Claim C4: when demo mode is false no boilerplate path is injected —
every path other than `/styles.css` maps in the assembled result to exactly
the author-supplied entry (present iff the author supplied it). -/
theorem non_demo_frame (a : FileMap) (p : String)
    (hp : p ≠ "/styles.css") :
    getFile (assembleFiles a false) p = getFile a p := by
  rw [assembleFiles_false]
  exact getFile_setFile_ne a "/styles.css" p (stylesEntry a) hp

/-- Witness for C4 at a concrete input. -/
theorem non_demo_frame_witness :
    getFile (assembleFiles [("/App.js", ⟨"x", false, none⟩)] false) "/App.js"
      = getFile [("/App.js", ⟨"x", false, none⟩)] "/App.js" :=
  non_demo_frame [("/App.js", ⟨"x", false, none⟩)] "/App.js" (by decide)

/-- Claim C8: assembly is a total function (it never fails); when the author
supplied no stylesheet entry, the default-value fallback substitutes the
empty string, so the assembled `/styles.css` code is the base stylesheet
followed by the separator and the empty string, and the entry is hidden. -/
theorem assemble_missing_styles_defaults_empty (a : FileMap) (sc : Bool)
    (h : getFile a "/styles.css" = none) :
    ∃ e, getFile (assembleFiles a sc) "/styles.css" = some e ∧
      e.code = sandboxStyle ++ "\n\n" ++ "" ∧
      e.hidden = true := by
  refine ⟨stylesEntry a, getFile_assemble_styles a sc, ?_, ?_⟩
  · show String.intercalate "\n\n"
        [sandboxStyle, ((getFile a "/styles.css").map SandpackFile.code).getD ""]
        = sandboxStyle ++ "\n\n" ++ ""
    rw [h]
    rfl
  · show (!(((getFile a "/styles.css").bind SandpackFile.visible).getD false))
        = true
    rw [h]
    rfl

/-- Witness for C8 at a concrete input. -/
theorem assemble_missing_styles_defaults_empty_witness :
    ∃ e, getFile (assembleFiles [] true) "/styles.css" = some e ∧
      e.code = sandboxStyle ++ "\n\n" ++ "" ∧
      e.hidden = true :=
  assemble_missing_styles_defaults_empty [] true rfl

/-- Claim C7: the provider configuration selector is a pure two-way branch
on the demo flag, for either autorun value: demo mode yields no template,
the base options (no bundler-URL override, log level `None`) and a custom
setup with entry `server.js` in the `node` environment; non-demo mode
yields the `react` template, the alternate bundler endpoint override and no
custom setup. -/
theorem providerConfig_two_way_branch (autorun : Bool) :
    providerConfig autorun true =
      { template := none,
        options :=
          { autorun := autorun,
            initMode := "user-visible",
            initModeObserverOptions := { rootMargin := "1400px 0px" },
            bundlerURL := none,
            logLevel := SandpackLogLevel.None },
        customSetup := some { entry := "server.js", environment := "node" } } ∧
    providerConfig autorun false =
      { template := some "react",
        options :=
          { autorun := autorun,
            initMode := "user-visible",
            initModeObserverOptions := { rootMargin := "1400px 0px" },
            bundlerURL :=
              some "https://1e4ad8f7.sandpack-bundler-4bw.pages.dev",
            logLevel := SandpackLogLevel.None },
        customSetup := none } :=
  ⟨rfl, rfl⟩

/-- Claim C10: an omitted `autorun` prop defaults to `true`, and for either
demo-mode flag value the `autorun` field of the produced provider options
equals the defaulted prop value. -/
theorem autorun_default_propagation :
    (∀ sc : Option Bool, ∀ files : FileMap,
      ((sandpackRoot ⟨none, sc⟩ files).2).options.autorun = true) ∧
    (∀ (a sc : Option Bool) (files : FileMap),
      ((sandpackRoot ⟨a, sc⟩ files).2).options.autorun = a.getD true) := by
  constructor
  · intro sc files
    cases h : sc.getD false <;>
      simp [sandpackRoot, providerConfig, h]
  · intro a sc files
    cases h : sc.getD false <;>
      simp [sandpackRoot, providerConfig, h]

theorem contentsDerive_cache_spec (c : LineCache) (f t : String) :
    (contentsDerive c f t).cache =
      if (cacheLookup c f).getD 0 = 0 then setCount c f (lineCount t)
      else c := rfl

theorem contentsDerive_first (c : LineCache) (f t : String)
    (h : cacheLookup c f = none) :
    contentsDerive c f t =
      { cache := setCount c f (lineCount t),
        lineCount := lineCount t,
        isExpandable := decide (lineCount t > 16) } := by
  have hg : (cacheLookup c f).getD 0 = 0 := by rw [h]; rfl
  simp [contentsDerive, hg, cacheLookup_setCount_self]

theorem contentsDerive_cached (c : LineCache) (f t : String) (n : Nat)
    (h : cacheLookup c f = some n) (hn : n ≠ 0) :
    contentsDerive c f t =
      { cache := c, lineCount := n, isExpandable := decide (n > 16) } := by
  have hg : ¬ ((cacheLookup c f).getD 0 = 0) := by
    rw [h]
    simpa using hn
  simp [contentsDerive, hg, h, hn]

/-- Claim C5: on a file's first sight (no cached entry), the derived
expandable flag is false exactly when the text's line count is 16 or fewer
and true exactly when it exceeds 16; and after any later edit the flag
still reflects the first-seen text's line count. -/
theorem isExpandable_threshold (c : LineCache) (f t0 t1 : String)
    (h : cacheLookup c f = none) :
    ((contentsDerive c f t0).isExpandable = true ↔ 16 < lineCount t0) ∧
    ((contentsDerive c f t0).isExpandable = false ↔ lineCount t0 ≤ 16) ∧
    ((contentsDerive (contentsDerive c f t0).cache f t1).isExpandable = true ↔
      16 < lineCount t0) := by
  have hne : lineCount t0 ≠ 0 := Nat.one_le_iff_ne_zero.mp (lineCount_pos t0)
  refine ⟨?_, ?_, ?_⟩
  · rw [contentsDerive_first c f t0 h]
    exact decide_eq_true_iff
  · rw [contentsDerive_first c f t0 h]
    show decide (lineCount t0 > 16) = false ↔ lineCount t0 ≤ 16
    rw [decide_eq_false_iff_not, Nat.not_lt]
  · rw [contentsDerive_first c f t0 h]
    show (contentsDerive (setCount c f (lineCount t0)) f t1).isExpandable
        = true ↔ 16 < lineCount t0
    rw [contentsDerive_cached (setCount c f (lineCount t0)) f t1
          (lineCount t0) (cacheLookup_setCount_self c f (lineCount t0)) hne]
    exact decide_eq_true_iff

/-- Witness for C5 at a concrete input. -/
theorem isExpandable_threshold_witness :
    (contentsDerive [] "/App.js" "hello").isExpandable = false ↔
      lineCount "hello" ≤ 16 :=
  (isExpandable_threshold [] "/App.js" "hello" "edited" rfl).2.1

/-- Claim C6: the line-count cache is one-shot — once a path's count has
been computed from its first-seen text, re-deriving for the same path with
any later text leaves the cache (and hence the stored count) unchanged. -/
theorem lineCount_cache_one_shot (c : LineCache) (f t0 t1 : String)
    (h : cacheLookup c f = none) :
    cacheLookup (contentsDerive c f t0).cache f = some (lineCount t0) ∧
    (contentsDerive (contentsDerive c f t0).cache f t1).cache =
      (contentsDerive c f t0).cache ∧
    cacheLookup (contentsDerive (contentsDerive c f t0).cache f t1).cache f =
      some (lineCount t0) ∧
    (contentsDerive (contentsDerive c f t0).cache f t1).lineCount =
      lineCount t0 := by
  have hne : lineCount t0 ≠ 0 := Nat.one_le_iff_ne_zero.mp (lineCount_pos t0)
  have hself := cacheLookup_setCount_self c f (lineCount t0)
  have hcached := contentsDerive_cached (setCount c f (lineCount t0)) f t1
    (lineCount t0) hself hne
  rw [contentsDerive_first c f t0 h]
  refine ⟨hself, ?_, ?_, ?_⟩
  · show (contentsDerive (setCount c f (lineCount t0)) f t1).cache =
      setCount c f (lineCount t0)
    rw [hcached]
  · show cacheLookup
        (contentsDerive (setCount c f (lineCount t0)) f t1).cache f =
      some (lineCount t0)
    rw [hcached]
    exact hself
  · show (contentsDerive (setCount c f (lineCount t0)) f t1).lineCount =
      lineCount t0
    rw [hcached]

/-- Witness for C6 at a concrete input. -/
theorem lineCount_cache_one_shot_witness :
    cacheLookup (contentsDerive
        (contentsDerive [] "/App.js" "a\nb").cache "/App.js"
        "a\nb\nc\nd").cache "/App.js" =
      some (lineCount "a\nb") :=
  (lineCount_cache_one_shot [] "/App.js" "a\nb" "a\nb\nc\nd" rfl).2.2.1

/-- Claim C9: every line count is at least 1 (splitting at newlines never
yields an empty list), every value the derivation stores is positive, and
under that invariant the falsy-entry guard of the cache is exactly the
first-visit test. -/
theorem lineCount_cache_guard :
    (∀ s : String, 1 ≤ lineCount s) ∧
    (∀ (c : LineCache) (f : String),
      (∀ p n, cacheLookup c p = some n → 0 < n) →
      (((cacheLookup c f).getD 0 = 0) ↔ cacheLookup c f = none)) ∧
    (∀ (c : LineCache) (f t : String),
      (∀ p n, cacheLookup c p = some n → 0 < n) →
      ∀ p n, cacheLookup (contentsDerive c f t).cache p = some n → 0 < n) := by
  refine ⟨lineCount_pos, ?_, ?_⟩
  · intro c f hinv
    cases hc : cacheLookup c f with
    | none => simp
    | some n =>
      have hn : n ≠ 0 := Nat.pos_iff_ne_zero.mp (hinv f n hc)
      simp [hn]
  · intro c f t hinv p n hp
    rw [contentsDerive_cache_spec] at hp
    by_cases hg : (cacheLookup c f).getD 0 = 0
    · rw [if_pos hg] at hp
      by_cases hpf : p = f
      · subst hpf
        rw [cacheLookup_setCount_self] at hp
        have hn := Option.some.inj hp
        rw [← hn]
        exact lineCount_pos t
      · rw [cacheLookup_setCount_ne c f p _ hpf] at hp
        exact hinv p n hp
    · rw [if_neg hg] at hp
      exact hinv p n hp

/-- Witness for C9 at a concrete input. -/
theorem lineCount_cache_guard_witness :
    (1 ≤ lineCount "") ∧
    (((cacheLookup ([] : LineCache) "/App.js").getD 0 = 0) ↔
      cacheLookup ([] : LineCache) "/App.js" = none) :=
  ⟨lineCount_cache_guard.1 "",
    lineCount_cache_guard.2.1 [] "/App.js"
      (fun p n h => absurd h (by simp [cacheLookup]))⟩
